import Mathlib

/-
Shallow embedding of src/libportability-gfx/src/conv.rs, the Vulkan-to-gfx-hal
value-translation layer of the portability repository.

Modelling conventions.
First, machine integers (u32 bitmasks and counts) are embedded as Nat; where
the source's u32 arithmetic can overflow, the definition takes the result
modulo 2 ^ 32, mirroring the wrapping behaviour of a release build.
Second, release-build semantics are used throughout: a debug_assert is
compiled out, integer addition wraps on overflow, and an overlong shift
amount is masked to the bit width (so a u32 shift by n computes a shift by
n % 32).
Third, the source signals every failure condition (an explicit panic, an
unimplemented arm, and a failed assert alike) by aborting the process; a
function that can abort is embedded as an Option-valued function, with none
standing for the abort.
Fourth, the numeric values of the externally specified Vulkan enumerations
and flag bits come from the external Vulkan specification (the repository's
generated binding layer that fixes them is not under src/), for example
VK_IMAGE_ASPECT_COLOR_BIT = 0x1.
Fifth, the internal gfx-hal vocabulary (an external crate) is embedded
structurally: flag sets become structures of Booleans with set semantics,
enumerations become inductive types, and the internal pixel-format
enumeration, which the source reinterprets numerically, becomes a subtype
of Nat.
-/

/-- Modelled from the spec: the count of the internal pixel-format
enumeration (the constant NUM_FORMATS of the hal format module, which is
external to src/). The spec fixes only that the internal formats share the
external numeric representation; the concrete count is the Vulkan 1.0 format
count. None of the theorems below depend on its exact value. -/
abbrev NUM_FORMATS : Nat := 185

/-- Modelled from the spec: the internal pixel-format type. It shares the
external numeric representation and has no variant for the undefined
sentinel 0, so its codes are exactly 1 .. NUM_FORMATS - 1. -/
abbrev Format : Type := {n : Nat // 0 < n ∧ n < NUM_FORMATS}

abbrev VK_FORMAT_UNDEFINED : Nat := 0

/-- Embedding of format_from_hal (conv.rs lines 8-11): HAL formats have the
same numeric representation as Vulkan formats, so the conversion is a plain
numeric reinterpretation of the internal format as an external code. -/
def format_from_hal (format : Format) : Nat := format.val

/-- Embedding of map_format (conv.rs lines 74-83): the undefined sentinel
maps to no internal value; every other code below NUM_FORMATS reinterprets
numerically; any code at or above NUM_FORMATS aborts (an unimplemented arm
in the source). -/
def map_format (format : Nat) : Option (Option Format) :=
  if h0 : format = VK_FORMAT_UNDEFINED then some none
  else if h1 : format < NUM_FORMATS then
    some (some ⟨format, Nat.pos_of_ne_zero h0, h1⟩)
  else none

abbrev VK_IMAGE_ASPECT_COLOR_BIT : Nat := 1
abbrev VK_IMAGE_ASPECT_DEPTH_BIT : Nat := 2
abbrev VK_IMAGE_ASPECT_STENCIL_BIT : Nat := 4
abbrev VK_IMAGE_ASPECT_METADATA_BIT : Nat := 8

/-- Internal aspect flag set (the hal format module's AspectFlags), as a set
of named flags. The source's conversion never produces the stencil flag. -/
structure AspectFlags where
  color : Bool
  depth : Bool
  stencil : Bool
  deriving DecidableEq

/-- Embedding of map_aspect (conv.rs lines 129-144): the color bit yields
COLOR; the depth bit yields DEPTH; the stencil bit also yields DEPTH (the
source accumulates the same internal flag for both); the metadata bit aborts
(an unimplemented arm in the source). -/
def map_aspect (aspects : Nat) : Option AspectFlags :=
  if aspects &&& VK_IMAGE_ASPECT_METADATA_BIT ≠ 0 then none
  else some
    { color := aspects &&& VK_IMAGE_ASPECT_COLOR_BIT != 0,
      depth := (aspects &&& VK_IMAGE_ASPECT_DEPTH_BIT != 0) ||
               (aspects &&& VK_IMAGE_ASPECT_STENCIL_BIT != 0),
      stencil := false }

/-- External subresource-range input: an aspect bitmask plus base+count pairs
for mip levels and array layers, all u32 fields. -/
structure VkImageSubresourceRange where
  aspectMask : Nat
  baseMipLevel : Nat
  levelCount : Nat
  baseArrayLayer : Nat
  layerCount : Nat
  deriving DecidableEq

/-- Internal subresource range: aspect flags plus two half-open ranges,
each embedded as a (start, stop) pair. -/
structure SubresourceRange where
  aspects : AspectFlags
  levels : Nat × Nat
  layers : Nat × Nat
  deriving DecidableEq

/-- Embedding of map_subresource_range (conv.rs lines 119-127). The u32
additions base + count wrap modulo 2 ^ 32 in a release build; the source has
no overflow guard. The subsequent narrowing cast into the external hal range
type is outside src/ and is embedded as the identity. -/
def map_subresource_range (subresource : VkImageSubresourceRange) :
    Option SubresourceRange :=
  (map_aspect subresource.aspectMask).map fun a =>
    { aspects := a,
      levels := (subresource.baseMipLevel,
                 (subresource.baseMipLevel + subresource.levelCount) % 2 ^ 32),
      layers := (subresource.baseArrayLayer,
                 (subresource.baseArrayLayer + subresource.layerCount) % 2 ^ 32) }

/-- Internal anti-aliasing mode (the hal image module's AaMode). -/
inductive AaMode where
  | Single
  | Multi (samples : Nat)
  deriving DecidableEq

/-- Embedding of map_aa_mode (conv.rs lines 199-206): a sample count of 1
yields Single, any other count yields Multi with that count. -/
def map_aa_mode (samples : Nat) : AaMode :=
  if samples = 1 then AaMode.Single else AaMode.Multi samples

/-- Internal image kind (the hal image module's Kind). The size fields are
embedded as Nat; the narrowing casts applied by the source when building
them live in the external hal types, outside src/. -/
inductive Kind where
  | D1 (w : Nat)
  | D1Array (w : Nat) (layers : Nat)
  | D2 (w : Nat) (h : Nat) (aa : AaMode)
  | D2Array (w : Nat) (h : Nat) (layers : Nat) (aa : AaMode)
  | Cube (size : Nat)
  | CubeArray (size : Nat) (layers : Nat)
  | D3 (w : Nat) (h : Nat) (d : Nat)
  deriving DecidableEq

/-- External image type enumeration. -/
inductive VkImageType where
  | VK_IMAGE_TYPE_1D
  | VK_IMAGE_TYPE_2D
  | VK_IMAGE_TYPE_3D
  deriving DecidableEq

/-- External 3D extent, u32 fields. -/
structure VkExtent3D where
  width : Nat
  height : Nat
  depth : Nat
  deriving DecidableEq

abbrev VK_IMAGE_CREATE_CUBE_COMPATIBLE_BIT : Nat := 16

/-- Embedding of map_image_kind (conv.rs lines 146-180), release semantics.
The debug_assert_ne on array_layers is compiled out in release builds and is
therefore not part of the embedding; the assert that a cube-compatible image
has a layer count divisible by 6 is always on and aborts on violation.
The source's match has two arms for VK_IMAGE_TYPE_1D (D1 and D1Array); the
first arm matches every 1D input, so the D1Array arm is unreachable and the
embedding keeps only the D1 arm. -/
def map_image_kind (ty : VkImageType) (flags : Nat) (extent : VkExtent3D)
    (array_layers : Nat) (samples : Nat) : Option Kind :=
  if flags &&& VK_IMAGE_CREATE_CUBE_COMPATIBLE_BIT ≠ 0 ∧ array_layers % 6 ≠ 0 then
    none
  else some (match ty with
    | VkImageType.VK_IMAGE_TYPE_1D => Kind.D1 extent.width
    | VkImageType.VK_IMAGE_TYPE_2D =>
      if array_layers = 1 then
        Kind.D2 extent.width extent.height (map_aa_mode samples)
      else if flags &&& VK_IMAGE_CREATE_CUBE_COMPATIBLE_BIT ≠ 0 ∧ array_layers = 6 then
        Kind.Cube extent.width
      else if flags &&& VK_IMAGE_CREATE_CUBE_COMPATIBLE_BIT ≠ 0 then
        Kind.CubeArray extent.width (array_layers / 6)
      else
        Kind.D2Array extent.width extent.height array_layers (map_aa_mode samples)
    | VkImageType.VK_IMAGE_TYPE_3D =>
      Kind.D3 extent.width extent.height extent.depth)

abbrev VK_IMAGE_USAGE_TRANSFER_SRC_BIT : Nat := 1
abbrev VK_IMAGE_USAGE_TRANSFER_DST_BIT : Nat := 2
abbrev VK_IMAGE_USAGE_SAMPLED_BIT : Nat := 4
abbrev VK_IMAGE_USAGE_STORAGE_BIT : Nat := 8
abbrev VK_IMAGE_USAGE_COLOR_ATTACHMENT_BIT : Nat := 16
abbrev VK_IMAGE_USAGE_DEPTH_STENCIL_ATTACHMENT_BIT : Nat := 32
abbrev VK_IMAGE_USAGE_TRANSIENT_ATTACHMENT_BIT : Nat := 64
abbrev VK_IMAGE_USAGE_INPUT_ATTACHMENT_BIT : Nat := 128

/-- Internal image usage flag set (the hal image module's Usage), as a set
of named flags. -/
structure ImageUsage where
  transfer_src : Bool
  transfer_dst : Bool
  sampled : Bool
  storage : Bool
  color_attachment : Bool
  depth_stencil_attachment : Bool
  deriving DecidableEq

/-- Embedding of map_image_usage (conv.rs lines 208-237): six recognized
bits accumulate the corresponding internal flag; the transient-attachment
and input-attachment bits abort (unimplemented arms in the source); any
other set bit is ignored. -/
def map_image_usage (usage : Nat) : Option ImageUsage :=
  if usage &&& VK_IMAGE_USAGE_TRANSIENT_ATTACHMENT_BIT ≠ 0 then none
  else if usage &&& VK_IMAGE_USAGE_INPUT_ATTACHMENT_BIT ≠ 0 then none
  else some
    { transfer_src := usage &&& VK_IMAGE_USAGE_TRANSFER_SRC_BIT != 0,
      transfer_dst := usage &&& VK_IMAGE_USAGE_TRANSFER_DST_BIT != 0,
      sampled := usage &&& VK_IMAGE_USAGE_SAMPLED_BIT != 0,
      storage := usage &&& VK_IMAGE_USAGE_STORAGE_BIT != 0,
      color_attachment := usage &&& VK_IMAGE_USAGE_COLOR_ATTACHMENT_BIT != 0,
      depth_stencil_attachment :=
        usage &&& VK_IMAGE_USAGE_DEPTH_STENCIL_ATTACHMENT_BIT != 0 }

abbrev VK_BUFFER_USAGE_TRANSFER_SRC_BIT : Nat := 1
abbrev VK_BUFFER_USAGE_TRANSFER_DST_BIT : Nat := 2
abbrev VK_BUFFER_USAGE_UNIFORM_TEXEL_BUFFER_BIT : Nat := 4
abbrev VK_BUFFER_USAGE_STORAGE_TEXEL_BUFFER_BIT : Nat := 8
abbrev VK_BUFFER_USAGE_UNIFORM_BUFFER_BIT : Nat := 16
abbrev VK_BUFFER_USAGE_STORAGE_BUFFER_BIT : Nat := 32
abbrev VK_BUFFER_USAGE_INDEX_BUFFER_BIT : Nat := 64
abbrev VK_BUFFER_USAGE_VERTEX_BUFFER_BIT : Nat := 128
abbrev VK_BUFFER_USAGE_INDIRECT_BUFFER_BIT : Nat := 256

/-- Internal buffer usage flag set (the hal buffer module's Usage), as a set
of named flags. -/
structure BufferUsage where
  transfer_src : Bool
  transfer_dst : Bool
  uniform_texel : Bool
  storage_texel : Bool
  uniform : Bool
  storage : Bool
  index : Bool
  vertex : Bool
  indirect : Bool
  deriving DecidableEq

/-- Embedding of map_buffer_usage (conv.rs lines 239-271): nine recognized
bits accumulate the corresponding internal flag; the function has no failure
path, and any other set bit is ignored. -/
def map_buffer_usage (usage : Nat) : BufferUsage :=
  { transfer_src := usage &&& VK_BUFFER_USAGE_TRANSFER_SRC_BIT != 0,
    transfer_dst := usage &&& VK_BUFFER_USAGE_TRANSFER_DST_BIT != 0,
    uniform_texel := usage &&& VK_BUFFER_USAGE_UNIFORM_TEXEL_BUFFER_BIT != 0,
    storage_texel := usage &&& VK_BUFFER_USAGE_STORAGE_TEXEL_BUFFER_BIT != 0,
    uniform := usage &&& VK_BUFFER_USAGE_UNIFORM_BUFFER_BIT != 0,
    storage := usage &&& VK_BUFFER_USAGE_STORAGE_BUFFER_BIT != 0,
    index := usage &&& VK_BUFFER_USAGE_INDEX_BUFFER_BIT != 0,
    vertex := usage &&& VK_BUFFER_USAGE_VERTEX_BUFFER_BIT != 0,
    indirect := usage &&& VK_BUFFER_USAGE_INDIRECT_BUFFER_BIT != 0 }

abbrev VK_SHADER_STAGE_VERTEX_BIT : Nat := 1
abbrev VK_SHADER_STAGE_TESSELLATION_CONTROL_BIT : Nat := 2
abbrev VK_SHADER_STAGE_TESSELLATION_EVALUATION_BIT : Nat := 4
abbrev VK_SHADER_STAGE_GEOMETRY_BIT : Nat := 8
abbrev VK_SHADER_STAGE_FRAGMENT_BIT : Nat := 16
abbrev VK_SHADER_STAGE_COMPUTE_BIT : Nat := 32
abbrev VK_SHADER_STAGE_ALL_GRAPHICS : Nat := 31
abbrev VK_SHADER_STAGE_ALL : Nat := 2147483647

/-- Internal shader stage flag set (the hal pso module's ShaderStageFlags),
as a set of named flags. GRAPHICS and ALL are composite masks on the
internal side; the embedding records each named constant the source
accumulates as its own flag, which is the granularity at which the source
operates (each accumulation in the source ors in exactly one of these
named constants). -/
structure ShaderStageFlags where
  vertex : Bool
  hull : Bool
  domain : Bool
  geometry : Bool
  fragment : Bool
  compute : Bool
  graphics : Bool
  all : Bool
  deriving DecidableEq

/-- Embedding of map_stage_flags (conv.rs lines 315-344): six single-bit
tests accumulate the corresponding internal stage flag, and two further
tests against the composite external masks VK_SHADER_STAGE_ALL_GRAPHICS
(0x1F) and VK_SHADER_STAGE_ALL (0x7FFFFFFF) accumulate the internal
GRAPHICS and ALL flags. The function has no failure path; because the two
composite masks overlap every low bit, any set bit among the low 31 turns
the ALL flag on, and any of the low 5 bits turns GRAPHICS on. -/
def map_stage_flags (stages : Nat) : ShaderStageFlags :=
  { vertex := stages &&& VK_SHADER_STAGE_VERTEX_BIT != 0,
    hull := stages &&& VK_SHADER_STAGE_TESSELLATION_CONTROL_BIT != 0,
    domain := stages &&& VK_SHADER_STAGE_TESSELLATION_EVALUATION_BIT != 0,
    geometry := stages &&& VK_SHADER_STAGE_GEOMETRY_BIT != 0,
    fragment := stages &&& VK_SHADER_STAGE_FRAGMENT_BIT != 0,
    compute := stages &&& VK_SHADER_STAGE_COMPUTE_BIT != 0,
    graphics := stages &&& VK_SHADER_STAGE_ALL_GRAPHICS != 0,
    all := stages &&& VK_SHADER_STAGE_ALL != 0 }

abbrev VK_ACCESS_INPUT_ATTACHMENT_READ_BIT : Nat := 16
abbrev VK_ACCESS_SHADER_READ_BIT : Nat := 32
abbrev VK_ACCESS_SHADER_WRITE_BIT : Nat := 64
abbrev VK_ACCESS_COLOR_ATTACHMENT_READ_BIT : Nat := 128
abbrev VK_ACCESS_COLOR_ATTACHMENT_WRITE_BIT : Nat := 256
abbrev VK_ACCESS_DEPTH_STENCIL_ATTACHMENT_READ_BIT : Nat := 512
abbrev VK_ACCESS_DEPTH_STENCIL_ATTACHMENT_WRITE_BIT : Nat := 1024
abbrev VK_ACCESS_TRANSFER_READ_BIT : Nat := 2048
abbrev VK_ACCESS_TRANSFER_WRITE_BIT : Nat := 4096
abbrev VK_ACCESS_HOST_READ_BIT : Nat := 8192
abbrev VK_ACCESS_HOST_WRITE_BIT : Nat := 16384
abbrev VK_ACCESS_MEMORY_READ_BIT : Nat := 32768
abbrev VK_ACCESS_MEMORY_WRITE_BIT : Nat := 65536

/-- Internal image access flag set (the hal image module's Access), as a set
of named flags. -/
structure Access where
  input_attachment_read : Bool
  shader_read : Bool
  shader_write : Bool
  color_attachment_read : Bool
  color_attachment_write : Bool
  depth_stencil_attachment_read : Bool
  depth_stencil_attachment_write : Bool
  transfer_read : Bool
  transfer_write : Bool
  host_read : Bool
  host_write : Bool
  memory_read : Bool
  memory_write : Bool
  deriving DecidableEq

/-- The empty internal access flag set. -/
def Access.empty : Access :=
  ⟨false, false, false, false, false, false, false, false, false, false,
   false, false, false⟩

/-- Embedding of map_image_acces (conv.rs lines 389-433; the name follows the
source). Thirteen recognized bits accumulate the corresponding internal flag;
the function has no failure path, and any other set bit (including the
Vulkan-defined access bits 0x1, 0x2, 0x4 and 0x8) is ignored. -/
def map_image_acces (access : Nat) : Access :=
  { input_attachment_read := access &&& VK_ACCESS_INPUT_ATTACHMENT_READ_BIT != 0,
    shader_read := access &&& VK_ACCESS_SHADER_READ_BIT != 0,
    shader_write := access &&& VK_ACCESS_SHADER_WRITE_BIT != 0,
    color_attachment_read := access &&& VK_ACCESS_COLOR_ATTACHMENT_READ_BIT != 0,
    color_attachment_write := access &&& VK_ACCESS_COLOR_ATTACHMENT_WRITE_BIT != 0,
    depth_stencil_attachment_read :=
      access &&& VK_ACCESS_DEPTH_STENCIL_ATTACHMENT_READ_BIT != 0,
    depth_stencil_attachment_write :=
      access &&& VK_ACCESS_DEPTH_STENCIL_ATTACHMENT_WRITE_BIT != 0,
    transfer_read := access &&& VK_ACCESS_TRANSFER_READ_BIT != 0,
    transfer_write := access &&& VK_ACCESS_TRANSFER_WRITE_BIT != 0,
    host_read := access &&& VK_ACCESS_HOST_READ_BIT != 0,
    host_write := access &&& VK_ACCESS_HOST_WRITE_BIT != 0,
    memory_read := access &&& VK_ACCESS_MEMORY_READ_BIT != 0,
    memory_write := access &&& VK_ACCESS_MEMORY_WRITE_BIT != 0 }

abbrev VK_PIPELINE_STAGE_HOST_BIT : Nat := 16384

/-- Embedding of map_pipeline_stage_flags (conv.rs lines 346-356), release
semantics. The source computes the guard as stages AND (1 shifted left by
(max_flag + 1) - 1) where max_flag is the flag value 0x4000, not a bit
index: by Rust operator precedence the additive part binds tighter than the
shift, giving a shift by 0x4000, and in a release build a u32 shift amount
is masked modulo 32, so the mask is 1 shifted by 0x4000 % 32 = 0, i.e. 1.
When the guard is zero the flags are reinterpreted unchanged; otherwise the
function aborts (an unimplemented arm in the source). -/
def map_pipeline_stage_flags (stages : Nat) : Option Nat :=
  if stages &&& ((1 <<< ((VK_PIPELINE_STAGE_HOST_BIT + 1 - 1) % 32)) % 2 ^ 32) = 0 then
    some stages
  else none

/-- Internal device-creation error enumeration (the hal adapter module's
DeviceCreationError). -/
inductive DeviceCreationError where
  | OutOfHostMemory
  | OutOfDeviceMemory
  | InitializationFailed
  | MissingExtension
  | MissingFeature
  | TooManyObjects
  | DeviceLost
  deriving DecidableEq, Fintype

abbrev VK_ERROR_OUT_OF_HOST_MEMORY : Int := -1
abbrev VK_ERROR_OUT_OF_DEVICE_MEMORY : Int := -2
abbrev VK_ERROR_INITIALIZATION_FAILED : Int := -3
abbrev VK_ERROR_DEVICE_LOST : Int := -4
abbrev VK_ERROR_EXTENSION_NOT_PRESENT : Int := -7
abbrev VK_ERROR_FEATURE_NOT_PRESENT : Int := -8
abbrev VK_ERROR_TOO_MANY_OBJECTS : Int := -10

/-- The external result codes produced by the device-creation error mapper;
each is a defined code of the external result enumeration. -/
def deviceCreationResultCodes : List Int :=
  [VK_ERROR_OUT_OF_HOST_MEMORY, VK_ERROR_OUT_OF_DEVICE_MEMORY,
   VK_ERROR_INITIALIZATION_FAILED, VK_ERROR_EXTENSION_NOT_PRESENT,
   VK_ERROR_FEATURE_NOT_PRESENT, VK_ERROR_TOO_MANY_OBJECTS,
   VK_ERROR_DEVICE_LOST]

/-- Embedding of map_err_device_creation (conv.rs lines 358-370): a total
case table from the internal error enumeration to external result codes
(embedded by their numeric values). -/
def map_err_device_creation : DeviceCreationError → Int
  | DeviceCreationError.OutOfHostMemory => VK_ERROR_OUT_OF_HOST_MEMORY
  | DeviceCreationError.OutOfDeviceMemory => VK_ERROR_OUT_OF_DEVICE_MEMORY
  | DeviceCreationError.InitializationFailed => VK_ERROR_INITIALIZATION_FAILED
  | DeviceCreationError.MissingExtension => VK_ERROR_EXTENSION_NOT_PRESENT
  | DeviceCreationError.MissingFeature => VK_ERROR_FEATURE_NOT_PRESENT
  | DeviceCreationError.TooManyObjects => VK_ERROR_TOO_MANY_OBJECTS
  | DeviceCreationError.DeviceLost => VK_ERROR_DEVICE_LOST

/-- Helper: a bitwise AND against a mask that already contains a given bit
pattern can be dropped in front of an AND with that pattern. -/
theorem land_mask_absorb (a m b : Nat) (h : m &&& b = b) :
    a &&& m &&& b = a &&& b := by
  rw [Nat.land_assoc, h]

/-- C1 counterexample: the external access mask 0x2 (the Vulkan index-read
access bit, which is outside the recognized table of map_image_acces) does
not fail; the mapper returns the empty internal flag set, identical to the
result for a zero input, so the unrecognized bit is silently dropped. -/
theorem c1_unrecognized_bit_silently_dropped :
    map_image_acces 2 = Access.empty ∧ map_image_acces 2 = map_image_acces 0 := by
  decide

/-- C1 amended: the bitmask mappers do not reject unrecognized input bits in
general. map_image_usage fails exactly when the transient-attachment or the
input-attachment bit is set; map_image_acces and map_buffer_usage never fail
and depend only on the bits of their recognized tables (masks 0x1FFF0 and
0x1FF respectively), so every other input bit is silently dropped; and
map_stage_flags never fails either — rather than dropping an unrecognized
bit, its composite-mask tests turn the internal ALL flag on for any set bit
among the low 31 and the GRAPHICS flag on for any of the low 5 bits, so the
unrecognized bit 0x40 yields the spurious flag set with exactly ALL set. -/
theorem c1_bitmask_mapper_rejection_amended :
    (∀ u : Nat, map_image_usage u = none ↔
      (u &&& VK_IMAGE_USAGE_TRANSIENT_ATTACHMENT_BIT ≠ 0 ∨
       u &&& VK_IMAGE_USAGE_INPUT_ATTACHMENT_BIT ≠ 0)) ∧
    (∀ a : Nat, map_image_acces (a &&& 0x1FFF0) = map_image_acces a) ∧
    (∀ u : Nat, map_buffer_usage (u &&& 0x1FF) = map_buffer_usage u) ∧
    (∀ s : Nat, (map_stage_flags s).all = (s &&& VK_SHADER_STAGE_ALL != 0)) ∧
    (∀ s : Nat,
      (map_stage_flags s).graphics = (s &&& VK_SHADER_STAGE_ALL_GRAPHICS != 0)) ∧
    map_stage_flags 64 =
      { vertex := false, hull := false, domain := false, geometry := false,
        fragment := false, compute := false, graphics := false, all := true } := by
  refine ⟨fun u => ?_, fun a => ?_, fun u => ?_, fun s => rfl, fun s => rfl,
    by decide⟩
  · unfold map_image_usage
    split_ifs with h1 h2
    · simp [h1]
    · simp [h2]
    · simp [h1, h2]
  · unfold map_image_acces
    rw [land_mask_absorb a 0x1FFF0 16 (by decide),
        land_mask_absorb a 0x1FFF0 32 (by decide),
        land_mask_absorb a 0x1FFF0 64 (by decide),
        land_mask_absorb a 0x1FFF0 128 (by decide),
        land_mask_absorb a 0x1FFF0 256 (by decide),
        land_mask_absorb a 0x1FFF0 512 (by decide),
        land_mask_absorb a 0x1FFF0 1024 (by decide),
        land_mask_absorb a 0x1FFF0 2048 (by decide),
        land_mask_absorb a 0x1FFF0 4096 (by decide),
        land_mask_absorb a 0x1FFF0 8192 (by decide),
        land_mask_absorb a 0x1FFF0 16384 (by decide),
        land_mask_absorb a 0x1FFF0 32768 (by decide),
        land_mask_absorb a 0x1FFF0 65536 (by decide)]
  · unfold map_buffer_usage
    rw [land_mask_absorb u 0x1FF 1 (by decide),
        land_mask_absorb u 0x1FF 2 (by decide),
        land_mask_absorb u 0x1FF 4 (by decide),
        land_mask_absorb u 0x1FF 8 (by decide),
        land_mask_absorb u 0x1FF 16 (by decide),
        land_mask_absorb u 0x1FF 32 (by decide),
        land_mask_absorb u 0x1FF 64 (by decide),
        land_mask_absorb u 0x1FF 128 (by decide),
        land_mask_absorb u 0x1FF 256 (by decide)]

/-- C1 amended witness: the transient-attachment bit makes map_image_usage
fail, dropping the unrecognized bit 0x2 leaves map_image_acces unchanged at
the concrete input 0x22, and the unrecognized shader-stage bit 0x40 sets the
internal ALL flag instead of failing or being dropped. -/
theorem c1_bitmask_mapper_rejection_amended_witness :
    map_image_usage 64 = none ∧
    map_image_acces (0x22 &&& 0x1FFF0) = map_image_acces 0x22 ∧
    (map_stage_flags 64).all = true :=
  ⟨(c1_bitmask_mapper_rejection_amended.1 64).mpr (Or.inl (by decide)),
   c1_bitmask_mapper_rejection_amended.2.1 0x22,
   (c1_bitmask_mapper_rejection_amended.2.2.2.1 64).trans (by decide)⟩

/-- C2: evaluating map_image_kind at a 1D input with 2 array layers. The
first VK_IMAGE_TYPE_1D match arm shadows the D1Array arm, so the source
returns the plain D1 kind and the array-layer count is ignored, contradicting
the claim that more than one layer yields D1Array. -/
theorem c2_image_kind_1d_ignores_layers :
    map_image_kind VkImageType.VK_IMAGE_TYPE_1D 0 ⟨64, 1, 1⟩ 2 1 =
      some (Kind.D1 64) := by
  decide

/-- C3: evaluating map_pipeline_stage_flags. Because the guard reduces to
testing the lowest bit only (see the definition), the input 0x8000 (the
graphics-stage bit, at the maximum-plus-one position, which the claim says
must fail) is returned unchanged, while the input 0x1 (the top-of-pipe bit,
well below the maximum, which the claim says must be reinterpreted
unchanged) fails. -/
theorem c3_pipeline_stage_flags_eval :
    map_pipeline_stage_flags 32768 = some 32768 ∧
    map_pipeline_stage_flags 1 = none := by
  decide

/-- C7 counterexample: a zero layer count does not fail in a release build
(the nonzero check in the source is only a debug assertion); the 2D input
with 0 layers returns a D2Array kind with 0 layers. -/
theorem c7_zero_layers_not_rejected :
    map_image_kind VkImageType.VK_IMAGE_TYPE_2D 0 ⟨64, 64, 1⟩ 0 1 =
      some (Kind.D2Array 64 64 0 AaMode.Single) := by
  decide

/-- C7 amended: the cube-divisibility precondition is enforced: for every
input with the cube-compatible flag set and a layer count not divisible by
6, map_image_kind fails (the assert in the source aborts). The layer-count
nonzero precondition is only a debug assertion and is not enforced in a
release build. -/
theorem c7_cube_divisibility_enforced (ty : VkImageType) (flags : Nat)
    (extent : VkExtent3D) (array_layers : Nat) (samples : Nat)
    (hc : flags &&& VK_IMAGE_CREATE_CUBE_COMPATIBLE_BIT ≠ 0)
    (hm : array_layers % 6 ≠ 0) :
    map_image_kind ty flags extent array_layers samples = none := by
  unfold map_image_kind
  rw [if_pos ⟨hc, hm⟩]

/-- C7 amended witness: the cube-compatible flag with layer count 4 fails. -/
theorem c7_cube_divisibility_enforced_witness :
    map_image_kind VkImageType.VK_IMAGE_TYPE_2D 16 ⟨64, 64, 1⟩ 4 1 = none :=
  c7_cube_divisibility_enforced VkImageType.VK_IMAGE_TYPE_2D 16 ⟨64, 64, 1⟩ 4 1
    (by decide) (by decide)

/-- C9: the device-creation error mapper is total over the internal error
enumeration by construction, maps every variant into the list of defined
external result codes, and is injective: distinct variants map to distinct
codes. -/
theorem c9_err_device_creation_total_injective :
    (∀ e : DeviceCreationError,
      map_err_device_creation e ∈ deviceCreationResultCodes) ∧
    (∀ e1 e2 : DeviceCreationError,
      map_err_device_creation e1 = map_err_device_creation e2 → e1 = e2) := by
  decide

/-- C9 witness: the injectivity direction applied at a concrete variant. -/
theorem c9_err_device_creation_total_injective_witness :
    DeviceCreationError.DeviceLost = DeviceCreationError.DeviceLost :=
  c9_err_device_creation_total_injective.2
    DeviceCreationError.DeviceLost DeviceCreationError.DeviceLost rfl

/-- C4: for 2D inputs with a nonzero layer count satisfying the cube
precondition, map_image_kind follows the claimed decision order: one layer
yields a plain D2 with the derived sample mode; the cube flag with exactly 6
layers yields Cube; the cube flag with a larger multiple of 6 yields
CubeArray with layer-count/6 faces; otherwise D2Array. -/
theorem c4_image_kind_2d_decision_order (flags : Nat) (extent : VkExtent3D)
    (array_layers : Nat) (samples : Nat) (_h0 : array_layers ≠ 0)
    (hc : flags &&& VK_IMAGE_CREATE_CUBE_COMPATIBLE_BIT ≠ 0 → array_layers % 6 = 0) :
    (array_layers = 1 →
      map_image_kind VkImageType.VK_IMAGE_TYPE_2D flags extent array_layers samples =
        some (Kind.D2 extent.width extent.height (map_aa_mode samples))) ∧
    (flags &&& VK_IMAGE_CREATE_CUBE_COMPATIBLE_BIT ≠ 0 → array_layers = 6 →
      map_image_kind VkImageType.VK_IMAGE_TYPE_2D flags extent array_layers samples =
        some (Kind.Cube extent.width)) ∧
    (flags &&& VK_IMAGE_CREATE_CUBE_COMPATIBLE_BIT ≠ 0 → array_layers ≠ 6 →
      map_image_kind VkImageType.VK_IMAGE_TYPE_2D flags extent array_layers samples =
        some (Kind.CubeArray extent.width (array_layers / 6))) ∧
    (flags &&& VK_IMAGE_CREATE_CUBE_COMPATIBLE_BIT = 0 → array_layers ≠ 1 →
      map_image_kind VkImageType.VK_IMAGE_TYPE_2D flags extent array_layers samples =
        some (Kind.D2Array extent.width extent.height array_layers (map_aa_mode samples))) := by
  unfold map_image_kind
  refine ⟨fun h1 => ?_, fun hcube h6 => ?_, fun hcube h6 => ?_, fun hnc h1 => ?_⟩
  · rw [if_neg (fun hh => hh.2 (hc hh.1)), if_pos h1]
  · rw [if_neg (fun hh => hh.2 (hc hh.1)),
        if_neg (fun h1 => by omega), if_pos ⟨hcube, h6⟩]
  · rw [if_neg (fun hh => hh.2 (hc hh.1)),
        if_neg (fun h1 => by have := hc hcube; omega),
        if_neg (fun hh => h6 hh.2), if_pos hcube]
  · rw [if_neg (fun hh => hh.2 (hc hh.1)), if_neg h1,
        if_neg (fun hh => hh.1 hnc), if_neg (fun hh => hh hnc)]

/-- C4 witness: a cube-compatible 2D image with width 64 and 6 layers maps
to Cube(64), and with 12 layers to CubeArray(64, 2). -/
theorem c4_image_kind_2d_decision_order_witness :
    map_image_kind VkImageType.VK_IMAGE_TYPE_2D 16 ⟨64, 64, 1⟩ 6 1 =
      some (Kind.Cube 64) ∧
    map_image_kind VkImageType.VK_IMAGE_TYPE_2D 16 ⟨64, 64, 1⟩ 12 1 =
      some (Kind.CubeArray 64 2) :=
  ⟨(c4_image_kind_2d_decision_order 16 ⟨64, 64, 1⟩ 6 1 (by decide)
      (fun _ => by decide)).2.1 (by decide) rfl,
   ((c4_image_kind_2d_decision_order 16 ⟨64, 64, 1⟩ 12 1 (by decide)
      (fun _ => by decide)).2.2.1 (by decide) (by decide)).trans (by decide)⟩

/-- C5: for every external pixel-format code in the valid range other than
the undefined sentinel, mapping to the internal format and back with
format_from_hal recovers the code exactly. -/
theorem c5_format_roundtrip (c : Nat) (h0 : c ≠ 0) (h1 : c < NUM_FORMATS) :
    ∃ f : Format, map_format c = some (some f) ∧ format_from_hal f = c := by
  refine ⟨⟨c, Nat.pos_of_ne_zero h0, h1⟩, ?_, rfl⟩
  unfold map_format
  rw [dif_neg h0, dif_pos h1]

/-- C5 witness: the round trip at the concrete format code 5. -/
theorem c5_format_roundtrip_witness :
    ∃ f : Format, map_format 5 = some (some f) ∧ format_from_hal f = 5 :=
  c5_format_roundtrip 5 (by decide) (by decide)

/-- C6: map_subresource_range converts base+count pairs to half-open ranges
whose upper bound is base + count (stated below the u32 overflow threshold;
the wrapping regime is treated separately), its aspect conversion folds the
external stencil bit into the same internal depth flag as the depth bit
(map_aspect agrees on the stencil-only and depth-only inputs, and the depth
flag of the result is set when either bit is), and the metadata bit makes
the whole conversion fail. -/
theorem c6_subresource_range :
    (∀ s : VkImageSubresourceRange,
      s.aspectMask &&& VK_IMAGE_ASPECT_METADATA_BIT = 0 →
      s.baseMipLevel + s.levelCount < 2 ^ 32 →
      s.baseArrayLayer + s.layerCount < 2 ^ 32 →
      map_subresource_range s = some
        { aspects :=
            { color := s.aspectMask &&& VK_IMAGE_ASPECT_COLOR_BIT != 0,
              depth := (s.aspectMask &&& VK_IMAGE_ASPECT_DEPTH_BIT != 0) ||
                       (s.aspectMask &&& VK_IMAGE_ASPECT_STENCIL_BIT != 0),
              stencil := false },
          levels := (s.baseMipLevel, s.baseMipLevel + s.levelCount),
          layers := (s.baseArrayLayer, s.baseArrayLayer + s.layerCount) }) ∧
    map_aspect VK_IMAGE_ASPECT_STENCIL_BIT = map_aspect VK_IMAGE_ASPECT_DEPTH_BIT ∧
    (∀ s : VkImageSubresourceRange,
      s.aspectMask &&& VK_IMAGE_ASPECT_METADATA_BIT ≠ 0 →
      map_subresource_range s = none) := by
  refine ⟨fun s hm hl ha => ?_, by decide, fun s hm => ?_⟩
  · have hasp : map_aspect s.aspectMask = some
        { color := s.aspectMask &&& VK_IMAGE_ASPECT_COLOR_BIT != 0,
          depth := (s.aspectMask &&& VK_IMAGE_ASPECT_DEPTH_BIT != 0) ||
                   (s.aspectMask &&& VK_IMAGE_ASPECT_STENCIL_BIT != 0),
          stencil := false } := by
      unfold map_aspect
      rw [if_neg (by simp [hm])]
    unfold map_subresource_range
    rw [hasp, Option.map_some', Nat.mod_eq_of_lt hl, Nat.mod_eq_of_lt ha]
  · unfold map_subresource_range map_aspect
    rw [if_pos hm]
    rfl

/-- C6 witness: a concrete range with color, depth and stencil aspects,
mips 2..5 and layers 1..5. -/
theorem c6_subresource_range_witness :
    map_subresource_range ⟨7, 2, 3, 1, 4⟩ =
      some { aspects := { color := true, depth := true, stencil := false },
             levels := (2, 5), layers := (1, 5) } :=
  (c6_subresource_range.1 ⟨7, 2, 3, 1, 4⟩ (by decide) (by decide)
    (by decide)).trans (by decide)

/-- C8: the undefined sentinel maps to no internal value; every other code
below the known count maps to some internal format; every code at or above
the known count fails; and no internal format maps back to the undefined
code under format_from_hal. -/
theorem c8_format_undefined_sentinel :
    map_format VK_FORMAT_UNDEFINED = some none ∧
    (∀ c : Nat, c ≠ 0 → c < NUM_FORMATS → ∃ f : Format,
      map_format c = some (some f)) ∧
    (∀ c : Nat, NUM_FORMATS ≤ c → map_format c = none) ∧
    (∀ f : Format, format_from_hal f ≠ VK_FORMAT_UNDEFINED) := by
  refine ⟨by decide, fun c h0 h1 => ?_, fun c h => ?_, fun f h => ?_⟩
  · obtain ⟨f, hf, _⟩ := c5_format_roundtrip c h0 h1
    exact ⟨f, hf⟩
  · have h185 : (185 : Nat) ≤ c := h
    unfold map_format
    rw [dif_neg (show ¬(c = 0) by omega), dif_neg (show ¬(c < 185) by omega)]
  · have hv : f.val = 0 := h
    have hp : 0 < f.val := f.2.1
    omega

/-- C8 witness: code 200 (beyond the known count) fails, and the internal
format with code 5 does not map back to the undefined sentinel. -/
theorem c8_format_undefined_sentinel_witness :
    map_format 200 = none ∧
    format_from_hal ⟨5, by decide⟩ ≠ VK_FORMAT_UNDEFINED :=
  ⟨c8_format_undefined_sentinel.2.2.1 200 (by decide),
   c8_format_undefined_sentinel.2.2.2 ⟨5, by decide⟩⟩

/-- C10: the base+count additions of map_subresource_range are unchecked
u32 additions: when the mathematical sum reaches 2 ^ 32 the stored upper
bound is the sum modulo 2 ^ 32, no failure is produced, and the resulting
half-open range is inverted (its upper bound is below its base). -/
theorem c10_subresource_range_wrapping (base count : Nat)
    (hb : base < 2 ^ 32) (hc : count < 2 ^ 32) (ho : 2 ^ 32 ≤ base + count) :
    map_subresource_range ⟨VK_IMAGE_ASPECT_COLOR_BIT, base, count, 0, 0⟩ =
      some { aspects := { color := true, depth := false, stencil := false },
             levels := (base, base + count - 2 ^ 32), layers := (0, 0) } ∧
    base + count - 2 ^ 32 < base := by
  constructor
  · have hasp : map_aspect VK_IMAGE_ASPECT_COLOR_BIT =
        some { color := true, depth := false, stencil := false } := by decide
    have h1 : (base + count) % 2 ^ 32 = base + count - 2 ^ 32 := by omega
    have h2 : ((0 : Nat) + 0) % 2 ^ 32 = 0 := by decide
    unfold map_subresource_range
    simp only [hasp, Option.map_some', h1, h2]
  · omega

/-- C10 witness: base mip level 4294967295 with level count 2 wraps to the
inverted range (4294967295, 1) without failing. -/
theorem c10_subresource_range_wrapping_witness :
    map_subresource_range ⟨1, 4294967295, 2, 0, 0⟩ =
      some { aspects := { color := true, depth := false, stencil := false },
             levels := (4294967295, 1), layers := (0, 0) } ∧
    (1 : Nat) < 4294967295 :=
  ⟨((c10_subresource_range_wrapping 4294967295 2 (by norm_num) (by norm_num)
      (by norm_num)).1).trans (by norm_num),
   by norm_num⟩
